import Mathlib

/-!
Shallow embedding of `examples/generate_sample_data.py` from the
structural_health_OMA repository, together with proofs settling the frozen
claims about its specification.

Modelling conventions:
* Python floats are modelled as exact rationals (`ℚ`); `int(x)` for
  nonnegative `x` is `⌊x⌋`.
* numpy arrays are modelled as index functions `ℕ → ℚ` while a signal is
  being built (the array of length `n` is the restriction to indices `< n`),
  and are materialised as `List ℚ` exactly where the code stores them into a
  DataFrame.
* The process-global numpy random generator is modelled as an explicit
  `RandomSource`: a state type together with the draw operations the script
  uses, each returning the drawn value and the next state, plus the range
  facts numpy guarantees for each kind of draw.
* `datetime.now()` is modelled as an explicit clock input `now` in integer
  milliseconds; `replace(second=0, microsecond=0)` floors it to the minute.
* Timestamps on waveform axes are rationals measured in milliseconds;
  segment boundary instants are naturals measured in minutes since
  2024-01-01 00:00 (the day the hard-coded anchor `datetime(2024,1,1,9,0,0)`
  falls on).
-/

/-- The source of randomness: state-passing versions of the numpy draws used
by the script, together with the range guarantees numpy documents.
`rand` is `np.random.rand()` (uniform on `[0,1)`), `randn` is
`np.random.randn()` (a standard-normal scalar, no range constraint),
`randnFun` is `np.random.randn(n)` (an array of independent normals, read
through its index function), `randint lo hi` is `np.random.randint(lo, hi)`
(uniform integer in `[lo, hi)`, defined when `lo < hi`), `uniform a b` is
`np.random.uniform(a, b)`, and `choice3` is
`np.random.choice(['good','fair','excellent'], p=[0.6,0.3,0.1])`. -/
structure RandomSource where
  σ : Type
  rand : σ → ℚ × σ
  randn : σ → ℚ × σ
  randnFun : σ → (ℕ → ℚ) × σ
  randint : ℕ → ℕ → σ → ℕ × σ
  uniform : ℚ → ℚ → σ → ℚ × σ
  choice3 : σ → String × σ
  rand_mem : ∀ s, 0 ≤ (rand s).1 ∧ (rand s).1 < 1
  randint_mem : ∀ lo hi s, lo < hi → lo ≤ (randint lo hi s).1 ∧ (randint lo hi s).1 < hi
  uniform_mem : ∀ a b s, a ≤ b → a ≤ (uniform a b s).1 ∧ (uniform a b s).1 ≤ b
  choice3_mem : ∀ s, (choice3 s).1 ∈ (["good", "fair", "excellent"] : List String)

/-- The real-valued library functions the script calls (`np.sin`, `np.pi`),
kept abstract: every claim below is independent of their values, so the
theorems hold for any oracle, and witnesses instantiate a concrete one. -/
structure MathOracle where
  sin : ℚ → ℚ
  pi : ℚ

/-- `np.linspace(a, b, k)` read through its index function: `k` evenly
spaced points from `a` to `b` inclusive (numpy returns `[a]` for `k = 1`). -/
def linspaceF (a b : ℚ) (k : ℕ) : ℕ → ℚ :=
  fun i => if k ≤ 1 then a else a + i * ((b - a) / ((k : ℚ) - 1))

/-- Generation parameters of `generate_synthetic_acceleration_data`,
with the Python defaults. -/
structure GenParams where
  sensor_names : List String
  duration_minutes : ℚ := 25
  fs : ℚ := 250
  base_frequencies : List ℚ := [5, 12, 18, 25, 35]
  noise_level : ℚ := 1/20
  trend_amplitude : ℚ := 1/50

/-- `n_samples = int(duration_minutes * 60 * fs)` (line 50). -/
def nSamplesQ (durationMinutes fs : ℚ) : ℕ :=
  (⌊durationMinutes * 60 * fs⌋).toNat

/-- Sample count of one synthesis call. -/
def nSamples (p : GenParams) : ℕ :=
  nSamplesQ p.duration_minutes p.fs


/-- `t = np.linspace(0, duration_minutes * 60, n_samples)` (line 53). -/
def timeVec (p : GenParams) : ℕ → ℚ :=
  linspaceF 0 (p.duration_minutes * 60) (nSamples p)

/-- One iteration of the mode loop (lines 67-76): accumulate
`amplitude * sin(2π · freq_var · t + phase)` for mode `j` with base
frequency `freq`, for the sensor at 0-based position `i` out of `m`. -/
def modeStep (O : MathOracle) (S : RandomSource) (i m : ℕ) (t : ℕ → ℚ)
    (acc : (ℕ → ℚ) × S.σ) (jf : ℕ × ℚ) : (ℕ → ℚ) × S.σ :=
  let modeFactor := O.sin (O.pi * ((i : ℚ) + 1) / ((m : ℚ) + 1))
  let r := S.randn acc.2
  let freqVar := jf.2 * (1 + (2/100) * r.1)
  let amplitude := (1/10) * modeFactor * (1 / ((jf.1 : ℚ) + 1))
  let ph := S.uniform 0 (2 * O.pi) r.2
  (fun k => acc.1 k + amplitude * O.sin (2 * O.pi * freqVar * t k + ph.1), ph.2)

/-- Lines 62-76: the zero signal plus all modal contributions for the
sensor at 0-based position `i`. -/
def modesSignal (O : MathOracle) (S : RandomSource) (p : GenParams) (i : ℕ)
    (st : S.σ) : (ℕ → ℚ) × S.σ :=
  p.base_frequencies.enum.foldl
    (modeStep O S i p.sensor_names.length (timeVec p)) (fun _ => 0, st)

/-- Lines 78-81: the low-frequency environmental trend. -/
def trendStep (O : MathOracle) (S : RandomSource) (p : GenParams)
    (sig : ℕ → ℚ) (st : S.σ) : (ℕ → ℚ) × S.σ :=
  let r := S.randn st
  let trendFreq := 1/1000 + (1/1000) * r.1
  let ph := S.uniform 0 (2 * O.pi) r.2
  (fun k => sig k + p.trend_amplitude *
      O.sin (2 * O.pi * trendFreq * timeVec p k + ph.1), ph.2)

/-- Lines 83-85: pointwise broadband noise `noise_level * randn(n)`. -/
def noiseStep (S : RandomSource) (p : GenParams)
    (sig : ℕ → ℚ) (st : S.σ) : (ℕ → ℚ) × S.σ :=
  let nf := S.randnFun st
  (fun k => sig k + p.noise_level * nf.1 k, nf.2)

/-- Lines 87-95: the transient-anomaly ("outlier") injection.  With
probability 10% choose `outlier_start ∈ [int(0.1 n), int(0.8 n))`,
`outlier_duration ∈ [int(0.01 n), int(0.05 n))`,
`outlier_end = min (outlier_start + outlier_duration) n`, and add the
constant `0.3 * randn()` on the slice `[outlier_start, outlier_end)`.
The chosen slice is also returned (as `some (start, end)`) so that
properties of the injection can be stated; the signal and state components
are exactly the code's. -/
def anomalyStep (S : RandomSource) (n : ℕ)
    (sig : ℕ → ℚ) (st : S.σ) : (ℕ → ℚ) × Option (ℕ × ℕ) × S.σ :=
  let u := S.rand st
  if u.1 < 1/10 then
    let a := S.randint (n / 10) (4 * n / 5) u.2
    let d := S.randint (n / 100) (n / 20) a.2
    let b := min (a.1 + d.1) n
    let r := S.randn d.2
    let shift := (3/10) * r.1
    (fun k => if a.1 ≤ k ∧ k < b then sig k + shift else sig k,
     some (a.1, b), r.2)
  else
    (sig, none, u.2)

/-- Lines 97-109: the edge-artifact injection.  With probability 20%,
each of the start and end edges is (independently, at 50%) perturbed by a
linear ramp over the first resp. last `int(0.02 n)` samples, scaled by a
standard-normal draw. -/
def edgeStep (S : RandomSource) (n : ℕ)
    (sig : ℕ → ℚ) (st : S.σ) : (ℕ → ℚ) × S.σ :=
  let u := S.rand st
  if u.1 < 1/5 then
    let e := n / 50
    let u1 := S.rand u.2
    let s1st :=
      if u1.1 < 1/2 then
        let r1 := S.randn u1.2
        (fun k => if k < e then sig k + linspaceF 2 0 e k * r1.1 else sig k,
         r1.2)
      else (sig, u1.2)
    let u2 := S.rand s1st.2
    if u2.1 < 1/2 then
      let r2 := S.randn u2.2
      (fun k => if n - e ≤ k ∧ k < n then
          s1st.1 k + linspaceF 0 (-3/2) e (k - (n - e)) * r2.1
        else s1st.1 k, r2.2)
    else (s1st.1, u2.2)
  else (sig, u.2)

/-- Mean of the first `n` values of a signal, `np.mean` on an array of
length `n`. -/
def sigMean (n : ℕ) (f : ℕ → ℚ) : ℚ :=
  (∑ i ∈ Finset.range n, f i) / n

/-- Lines 111-113: draw `target_mean` uniformly from `[-1.05, -0.95]` and
recenter: `signal = signal - np.mean(signal) + target_mean`. -/
def recenterStep (S : RandomSource) (n : ℕ)
    (sig : ℕ → ℚ) (st : S.σ) : (ℕ → ℚ) × S.σ :=
  let tm := S.uniform (-21/20) (-19/20) st
  (fun k => sig k - sigMean n sig + tm.1, tm.2)

/-- The per-sensor pipeline up to (but excluding) the final re-centering:
modes, trend, noise, anomaly, edge artifacts (lines 62-109). -/
def preRecenter (O : MathOracle) (S : RandomSource) (p : GenParams) (i : ℕ)
    (st : S.σ) : (ℕ → ℚ) × Option (ℕ × ℕ) × S.σ :=
  let n := nSamples p
  let s1 := modesSignal O S p i st
  let s2 := trendStep O S p s1.1 s1.2
  let s3 := noiseStep S p s2.1 s2.2
  let s4 := anomalyStep S n s3.1 s3.2
  let s5 := edgeStep S n s4.1 s4.2.2
  (s5.1, s4.2.1, s5.2)

/-- The full per-sensor construction (lines 62-115): pipeline plus final
re-centering.  Returns the finished signal, the anomaly slice that was
injected (if any), and the advanced random state. -/
def buildSensorSignal (O : MathOracle) (S : RandomSource) (p : GenParams)
    (i : ℕ) (st : S.σ) : (ℕ → ℚ) × Option (ℕ × ℕ) × S.σ :=
  let pre := preRecenter O S p i st
  let fin := recenterStep S (nSamples p) pre.1 pre.2.2
  (fin.1, pre.2.1, fin.2)

/-- The DataFrame returned by `generate_synthetic_acceleration_data`: a
shared timestamp axis (milliseconds) plus one materialised sample list per
sensor, in sensor-list order. -/
structure WaveformTable where
  index : List ℚ
  data : List (String × List ℚ)
deriving DecidableEq

/-- The `for i, sensor in enumerate(sensor_names)` loop (lines 62-115),
threading the random state across sensors and materialising each finished
signal into a list of `n` samples. -/
def sensorFold (O : MathOracle) (S : RandomSource) (p : GenParams) (n : ℕ) :
    List (ℕ × String) → S.σ → List (String × List ℚ) × S.σ
  | [], st => ([], st)
  | (i, name) :: rest, st =>
      let r := buildSensorSignal O S p i st
      let tail := sensorFold O S p n rest r.2.2
      ((name, (List.range n).map r.1) :: tail.1, tail.2)

/-- `generate_synthetic_acceleration_data` (lines 32-120).  `now` is the
clock reading of `datetime.now()` in integer milliseconds; the DataFrame
index starts at `now` floored to the minute and advances by
`1000/fs` milliseconds per sample (the `pd.date_range(..., freq=f'{1000/fs}ms')`
of line 57, in exact arithmetic). -/
def generate_synthetic_acceleration_data (O : MathOracle) (S : RandomSource)
    (p : GenParams) (st : S.σ) (now : ℕ) : WaveformTable × S.σ :=
  let n := nSamples p
  let startT : ℕ := now / 60000 * 60000
  let idx := (List.range n).map
    (fun (k : ℕ) => (startT : ℚ) + (k : ℚ) * (1000 / p.fs))
  let d := sensorFold O S p n p.sensor_names.enum st
  ({ index := idx, data := d.1 }, d.2)

/-! ### Calendar formatting (`strftime('%Y%m%d%H%M%S')`) -/

/-- Decimal digit to character. -/
def digitChar (d : ℕ) : Char :=
  match d with
  | 0 => '0' | 1 => '1' | 2 => '2' | 3 => '3' | 4 => '4'
  | 5 => '5' | 6 => '6' | 7 => '7' | 8 => '8' | _ => '9'

/-- Little-endian decimal digits of `n`, computed with explicit fuel so
that the kernel can evaluate it (`Nat.digits` is defined by well-founded
recursion and does not reduce).  `natDigitsAux fuel n = Nat.digits 10 n`
whenever `n ≤ fuel`, see `natDigitsAux_eq_digits`. -/
def natDigitsAux : ℕ → ℕ → List ℕ
  | 0, _ => []
  | _ + 1, 0 => []
  | fuel + 1, n + 1 => (n + 1) % 10 :: natDigitsAux fuel ((n + 1) / 10)


/-- Python `str(n)` for a natural number: decimal digits, most significant
first. -/
def natStr (n : ℕ) : String :=
  if n = 0 then "0" else ⟨((natDigitsAux n n).reverse.map digitChar)⟩

/-- Civil date from a day count measured since 2024-01-01 (the day of the
hard-coded anchor `datetime(2024, 1, 1, 9, 0, 0)`): the standard
era-based Gregorian conversion. Returns `(year, month, day)`. -/
def civilFromDays (z : ℕ) : ℕ × ℕ × ℕ :=
  let zp := z + 739191
  let era := zp / 146097
  let doe := zp % 146097
  let yoe := (doe - doe / 1460 + doe / 36524 - doe / 146096) / 365
  let y := yoe + era * 400
  let doy := doe - (365 * yoe + yoe / 4 - yoe / 100)
  let mp := (5 * doy + 2) / 153
  let d := doy - (153 * mp + 2) / 5 + 1
  let m := if mp < 10 then mp + 3 else mp - 9
  (if m ≤ 2 then y + 1 else y, m, d)

/-- The 14-digit `YYYYMMDDHHMMSS` value of an instant given in whole
minutes since 2024-01-01 00:00 (seconds are always zero here). -/
def timestampCode (t : ℕ) : ℕ :=
  let ymd := civilFromDays (t / 1440)
  let rem := t % 1440
  ((((ymd.1 * 100 + ymd.2.1) * 100 + ymd.2.2) * 100 + rem / 60) * 100
    + rem % 60) * 100

/-- `strftime('%Y%m%d%H%M%S')` for an instant in whole minutes since
2024-01-01 00:00.  Because the year has four digits, rendering the combined
code gives each component zero-padded to its field width. -/
def formatTs (t : ℕ) : String := natStr (timestampCode t)

/-! ### Dataset assembler (`generate_sample_dataset`, lines 149-249) -/

/-- Nested optional configuration shape read by the assembler:
`config.get('oma', {}).get('geometry', {}).get('sensor_names', ...)` and
`config.get('signal_processing', {}).get('sampling_frequency', 250)`. -/
structure GeometryCfg where
  sensor_names : Option (List String)

structure OmaCfg where
  geometry : Option GeometryCfg

structure SignalCfg where
  sampling_frequency : Option ℚ

structure Config where
  oma : Option OmaCfg
  signal_processing : Option SignalCfg

/-- Lines 160-162: sensor names with the documented default. -/
def resolveSensorNames (c : Config) : List String :=
  (((c.oma.getD ⟨none⟩).geometry.getD ⟨none⟩).sensor_names).getD
    ["sensor_1", "sensor_2", "sensor_3", "sensor_4"]

/-- Lines 165-166: sampling frequency with the documented default 250 Hz. -/
def resolveSamplingFreq (c : Config) : ℚ :=
  ((c.signal_processing.getD ⟨none⟩).sampling_frequency).getD 250

/-- The field paths being absent from the configuration. -/
def sensorNamesAbsent (c : Config) : Prop :=
  ((c.oma.getD ⟨none⟩).geometry.getD ⟨none⟩).sensor_names = none

def samplingFreqAbsent (c : Config) : Prop :=
  (c.signal_processing.getD ⟨none⟩).sampling_frequency = none

/-- Minutes since 2024-01-01 00:00 of the anchor
`datetime(2024, 1, 1, 9, 0, 0)`. -/
def anchorMin : ℕ := 9 * 60

/-- Line 179-180: start of 1-based segment `s`, in minutes. -/
def segStartMin (s : ℕ) : ℕ := anchorMin + (s - 1) * 30

/-- Line 181: end of 1-based segment `s`, in minutes. -/
def segEndMin (s : ℕ) : ℕ := segStartMin s + 25

/-- Line 214: `f"{case_name}_segment{segment}_{start_str}_{end_str}.pickle"`. -/
def segmentFilename (caseName : String) (s startT endT : ℕ) : String :=
  caseName ++ "_segment" ++ natStr s ++ "_" ++ formatTs startT ++ "_"
    ++ formatTs endT ++ ".pickle"

/-- `pd.date_range(start=start, end=end, periods=n)` (line 198): `n`
evenly spaced timestamps from `start` to `end` inclusive (`[start]` when
`n = 1`); arguments in milliseconds. -/
def dateRangeSpan (a b : ℚ) (n : ℕ) : List ℚ :=
  (List.range n).map
    (fun (k : ℕ) => if n ≤ 1 then a else a + (k : ℚ) * ((b - a) / ((n : ℚ) - 1)))

/-- The per-segment metadata dictionary (lines 202-211). -/
structure Metadata where
  tag_columns : List String
  sampling_frequency : ℚ
  segment_number : ℕ
  start_time : ℕ
  end_time : ℕ
  generation_timestamp : ℕ
  synthetic : Bool
  data_quality : String
deriving DecidableEq

/-- The two-field pickle payload (lines 140-143). -/
structure SegmentRecord where
  accelerations : WaveformTable
  metadata : Metadata
deriving DecidableEq

/-- `dataset_info` of the summary (lines 227-234). -/
structure DatasetInfo where
  n_segments : ℕ
  case_name : String
  sensors : List String
  sampling_frequency : ℚ
  segment_duration_minutes : ℕ
  generation_date : ℕ
deriving DecidableEq

/-- The summary dictionary (lines 226-241). -/
structure Summary where
  dataset_info : DatasetInfo
  file_pattern : String
  expected_workflow_steps : List String
deriving DecidableEq

/-- Everything one run writes: the segment files in generation order and
the summary file, each with its filename. -/
structure RunResult where
  segmentFiles : List (String × SegmentRecord)
  summaryFile : String × Summary
deriving DecidableEq

/-- One iteration of the segment loop (lines 177-218) for 1-based segment
index `s`: draw the segment-varying noise and trend amplitudes, synthesize,
re-timestamp the table onto `[start, end]`, draw the quality label, build
the metadata, and name the file. -/
def makeSegment (O : MathOracle) (S : RandomSource) (sensors : List String)
    (fs : ℚ) (caseName : String) (s : ℕ) (st : S.σ) (now : ℕ) :
    (String × SegmentRecord) × S.σ :=
  let startT := segStartMin s
  let endT := segEndMin s
  let r1 := S.randn st
  let r2 := S.randn r1.2
  let p : GenParams :=
    { sensor_names := sensors
      duration_minutes := 25
      fs := fs
      base_frequencies :=
        [4 + (s : ℚ) * (1/10), 12 + (s : ℚ) * (1/20), 18 + (s : ℚ) * (1/50),
         25, 35]
      noise_level := 1/20 + (1/100) * r1.1
      trend_amplitude := 1/50 + (1/200) * r2.1 }
  let g := generate_synthetic_acceleration_data O S p r2.2 now
  let newIdx := dateRangeSpan (startT * 60000) (endT * 60000) g.1.index.length
  let q := S.choice3 g.2
  let record : SegmentRecord :=
    { accelerations := { index := newIdx, data := g.1.data }
      metadata :=
        { tag_columns := []
          sampling_frequency := fs
          segment_number := s
          start_time := startT
          end_time := endT
          generation_timestamp := now
          synthetic := true
          data_quality := q.1 } }
  ((segmentFilename caseName s startT endT, record), q.2)

/-- The segment loop: generate `m` segments with 1-based indices starting
at `s`, threading the random state. -/
def runSegments (O : MathOracle) (S : RandomSource) (sensors : List String)
    (fs : ℚ) (caseName : String) (now : ℕ) :
    ℕ → ℕ → S.σ → List (String × SegmentRecord) × S.σ
  | 0, _, st => ([], st)
  | m + 1, s, st =>
      let f := makeSegment O S sensors fs caseName s st now
      let rest := runSegments O S sensors fs caseName now m (s + 1) f.2
      (f.1 :: rest.1, rest.2)

/-- Fixed summary filename (line 243). -/
def summaryFilename : String := "dataset_summary.yaml"

/-- The summary written after the loop (lines 226-241). -/
def buildSummary (sensors : List String) (fs : ℚ) (caseName : String)
    (nSegments : ℕ) (now : ℕ) : Summary :=
  { dataset_info :=
      { n_segments := nSegments
        case_name := caseName
        sensors := sensors
        sampling_frequency := fs
        segment_duration_minutes := 25
        generation_date := now }
    file_pattern := caseName ++ "_segment{N}_{start}_{end}.pickle"
    expected_workflow_steps :=
      ["step1_data_filtering_qc.py --config config.yaml",
       "step2_data_processing_oma.py --config config.yaml --case-name "
         ++ caseName,
       "step3_modal_analysis.py --config config.yaml --mode 6"] }

/-- The run body after configuration resolution. -/
def assembleRun (O : MathOracle) (S : RandomSource) (sensors : List String)
    (fs : ℚ) (nSegments : ℕ) (caseName : String) (st : S.σ) (now : ℕ) :
    RunResult :=
  { segmentFiles := (runSegments O S sensors fs caseName now nSegments 1 st).1
    summaryFile := (summaryFilename, buildSummary sensors fs caseName nSegments now) }

/-- `generate_sample_dataset` (lines 149-249): resolve the configuration,
run the segment loop, write the summary. -/
def generate_sample_dataset (O : MathOracle) (S : RandomSource) (c : Config)
    (nSegments : ℕ) (caseName : String) (st : S.σ) (now : ℕ) : RunResult :=
  assembleRun O S (resolveSensorNames c) (resolveSamplingFreq c) nSegments
    caseName st now

/-! ### Concrete instances used by witnesses and counterexamples -/

/-- A concrete oracle (its values are irrelevant to every claim). -/
def oracle0 : MathOracle := { sin := fun _ => 0, pi := 3 }

/-- A deterministic random source on the trivial state: `rand` returns
`1/2` (so neither injection triggers), `randn` returns `0`, `randint`
returns its lower bound, `uniform` returns its lower endpoint. -/
def detSource : RandomSource where
  σ := Unit
  rand := fun _ => (1/2, ())
  randn := fun _ => (0, ())
  randnFun := fun _ => (fun _ => 0, ())
  randint := fun lo _ _ => (lo, ())
  uniform := fun a _ _ => (a, ())
  choice3 := fun _ => ("good", ())
  rand_mem := by intro s; constructor <;> norm_num
  randint_mem := by intro lo hi s h; exact ⟨le_rfl, h⟩
  uniform_mem := by intro a b s h; exact ⟨le_refl a, h⟩
  choice3_mem := by intro s; simp

/-- A deterministic random source whose `rand` returns `0` (both injections
trigger) and whose `randint` returns the top of its range. -/
def hiSource : RandomSource where
  σ := Unit
  rand := fun _ => (0, ())
  randn := fun _ => (1, ())
  randnFun := fun _ => (fun _ => 1, ())
  randint := fun lo hi _ => (if lo < hi then hi - 1 else lo, ())
  uniform := fun a _ _ => (a, ())
  choice3 := fun _ => ("good", ())
  rand_mem := by intro s; constructor <;> norm_num
  randint_mem := by intro lo hi s h; simp only [if_pos h]; omega
  uniform_mem := by intro a b s h; exact ⟨le_refl a, h⟩
  choice3_mem := by intro s; simp

/-- A deterministic random source whose `rand` returns `0` (both injections
trigger) and whose `randint` returns the bottom of its range. -/
def loSource : RandomSource where
  σ := Unit
  rand := fun _ => (0, ())
  randn := fun _ => (0, ())
  randnFun := fun _ => (fun _ => 0, ())
  randint := fun lo _ _ => (lo, ())
  uniform := fun a _ _ => (a, ())
  choice3 := fun _ => ("good", ())
  rand_mem := by intro s; constructor <;> norm_num
  randint_mem := by intro lo hi s h; exact ⟨le_rfl, h⟩
  uniform_mem := by intro a b s h; exact ⟨le_refl a, h⟩
  choice3_mem := by intro s; simp

/-- Generation parameters of the spec's small scenario: sensors
`["s1","s2"]`, duration 1 minute, sampling rate 10 Hz. -/
def p6 : GenParams :=
  { sensor_names := ["s1", "s2"], duration_minutes := 1, fs := 10 }

/-- The documented default sensor list (line 162). -/
def defaultSensors : List String :=
  ["sensor_1", "sensor_2", "sensor_3", "sensor_4"]

/-- A configuration carrying the documented defaults explicitly. -/
def explicitDefaultCfg : Config :=
  { oma := some { geometry := some { sensor_names := some defaultSensors } }
    signal_processing := some { sampling_frequency := some 250 } }

/-- The synthesis parameters the assembler really uses for one sensor:
defaults (25 minutes at 250 Hz). -/
def p375 : GenParams := { sensor_names := ["x"] }

/-- Tiny synthesis parameters: one sensor, one second of data at 2 Hz. -/
def p2 : GenParams :=
  { sensor_names := ["s1"], duration_minutes := 1/60, fs := 2,
    base_frequencies := [1] }

/-- The configuration of the spec's end-to-end scenario: sensors
`["s1","s2"]`, sampling rate 10 Hz. -/
def cfg4 : Config :=
  { oma := some { geometry := some { sensor_names := some ["s1", "s2"] } }
    signal_processing := some { sampling_frequency := some 10 } }

/-! ### Helper lemmas -/

theorem natDigitsAux_eq_digits : ∀ (fuel n : ℕ), n ≤ fuel →
    natDigitsAux fuel n = Nat.digits 10 n := by
  intro fuel
  induction fuel with
  | zero => intro n h; interval_cases n; simp [natDigitsAux]
  | succ fuel ih =>
      intro n h
      cases n with
      | zero => simp [natDigitsAux]
      | succ n =>
          rw [natDigitsAux,
            Nat.digits_def' (by norm_num : (1:ℕ) < 10) (Nat.succ_pos n)]
          congr 1
          exact ih _ (by
            have := Nat.div_lt_self (Nat.succ_pos n) (by norm_num : (1:ℕ) < 10)
            omega)

/-- Evaluation of the sample count when the product is a whole number. -/
theorem nSamplesQ_val (a b : ℚ) (k : ℕ) (h : a * 60 * b = (k : ℚ)) :
    nSamplesQ a b = k := by
  rw [nSamplesQ, h, Int.floor_natCast]
  rfl

/-! ### Basic access lemmas -/

theorem getElem?_map_range (f : ℕ → ℚ) {n k : ℕ} (h : k < n) :
    ((List.range n).map f)[k]? = some (f k) := by
  simp [List.getElem?_map, List.getElem?_range, h]

theorem sensorFold_entry_length (O : MathOracle) (S : RandomSource)
    (p : GenParams) (n : ℕ) :
    ∀ (l : List (ℕ × String)) (st : S.σ) e,
      e ∈ (sensorFold O S p n l st).1 → e.2.length = n := by
  intro l
  induction l with
  | nil => intro st e he; simp [sensorFold] at he
  | cons x rest ih =>
      intro st e he
      obtain ⟨i, name⟩ := x
      simp only [sensorFold, List.mem_cons] at he
      rcases he with he | he
      · subst he; simp
      · exact ih _ _ he

theorem synth_index_length (O : MathOracle) (S : RandomSource)
    (p : GenParams) (st : S.σ) (now : ℕ) :
    (generate_synthetic_acceleration_data O S p st now).1.index.length
      = nSamples p := by
  simp [generate_synthetic_acceleration_data]

theorem synth_index_getElem? (O : MathOracle) (S : RandomSource)
    (p : GenParams) (st : S.σ) (now : ℕ) {k : ℕ} (h : k < nSamples p) :
    (generate_synthetic_acceleration_data O S p st now).1.index[k]?
      = some ((now / 60000 * 60000 : ℕ) + (k : ℚ) * (1000 / p.fs)) := by
  simp only [generate_synthetic_acceleration_data]
  exact getElem?_map_range _ h

theorem synth_data_entry_length (O : MathOracle) (S : RandomSource)
    (p : GenParams) (st : S.σ) (now : ℕ) :
    ∀ e ∈ (generate_synthetic_acceleration_data O S p st now).1.data,
      e.2.length = nSamples p := by
  intro e he
  exact sensorFold_entry_length O S p (nSamples p) _ st e he

theorem dateRangeSpan_length (a b : ℚ) (n : ℕ) :
    (dateRangeSpan a b n).length = n := by
  simp [dateRangeSpan]

theorem dateRangeSpan_getElem? (a b : ℚ) {n k : ℕ} (h : k < n) :
    (dateRangeSpan a b n)[k]?
      = some (if n ≤ 1 then a
              else a + (k : ℚ) * ((b - a) / ((n : ℚ) - 1))) := by
  simp only [dateRangeSpan]
  exact getElem?_map_range _ h

/-! ### Decimal rendering: characters and injectivity -/

theorem digitChar_lt_ten_ne_underscore :
    ∀ d < 10, digitChar d ≠ '_' := by decide

theorem digitChar_inj_lt :
    ∀ d < 10, ∀ e < 10, digitChar d = digitChar e → d = e := by decide

theorem map_digitChar_inj :
    ∀ (l₁ l₂ : List ℕ), (∀ x ∈ l₁, x < 10) → (∀ x ∈ l₂, x < 10) →
      l₁.map digitChar = l₂.map digitChar → l₁ = l₂ := by
  intro l₁
  induction l₁ with
  | nil => intro l₂ _ _ h; cases l₂ <;> simp_all
  | cons x xs ih =>
      intro l₂ h₁ h₂ h
      cases l₂ with
      | nil => simp at h
      | cons y ys =>
          simp only [List.map_cons, List.cons.injEq] at h
          have hx := digitChar_inj_lt x (h₁ x (by simp)) y (h₂ y (by simp)) h.1
          have := ih ys (fun z hz => h₁ z (by simp [hz]))
            (fun z hz => h₂ z (by simp [hz])) h.2
          simp [hx, this]

theorem natStr_data_ne_underscore (n : ℕ) :
    ∀ c ∈ (natStr n).data, c ≠ '_' := by
  intro c hc
  unfold natStr at hc
  by_cases h : n = 0
  · rw [if_pos h] at hc
    have h0 : ("0" : String).data = ['0'] := rfl
    rw [h0] at hc
    have : c = '0' := by simpa using hc
    subst this; decide
  · rw [if_neg h, natDigitsAux_eq_digits n n le_rfl] at hc
    simp only [String.data] at hc
    obtain ⟨d, hd, rfl⟩ := List.mem_map.mp hc
    have : d < 10 :=
      Nat.digits_lt_base (by norm_num) (List.mem_reverse.mp hd)
    exact digitChar_lt_ten_ne_underscore d this

theorem natStr_inj {a b : ℕ} (ha : a ≠ 0) (hb : b ≠ 0)
    (h : natStr a = natStr b) : a = b := by
  unfold natStr at h
  rw [if_neg ha, if_neg hb, natDigitsAux_eq_digits a a le_rfl,
    natDigitsAux_eq_digits b b le_rfl] at h
  have hd : (Nat.digits 10 a).reverse.map digitChar
      = (Nat.digits 10 b).reverse.map digitChar := congrArg String.data h
  have hrev := map_digitChar_inj _ _
    (fun x hx => Nat.digits_lt_base (by norm_num) (List.mem_reverse.mp hx))
    (fun x hx => Nat.digits_lt_base (by norm_num) (List.mem_reverse.mp hx)) hd
  have hdig : Nat.digits 10 a = Nat.digits 10 b := by
    have := congrArg List.reverse hrev
    simpa using this
  calc a = Nat.ofDigits 10 (Nat.digits 10 a) := (Nat.ofDigits_digits 10 a).symm
    _ = Nat.ofDigits 10 (Nat.digits 10 b) := by rw [hdig]
    _ = b := Nat.ofDigits_digits 10 b

theorem append_underscore_inj :
    ∀ (l₁ l₂ r₁ r₂ : List Char), ('_' ∉ l₁) → ('_' ∉ l₂) →
      l₁ ++ '_' :: r₁ = l₂ ++ '_' :: r₂ → l₁ = l₂ ∧ r₁ = r₂ := by
  intro l₁
  induction l₁ with
  | nil =>
      intro l₂ r₁ r₂ _ h₂ h
      cases l₂ with
      | nil => simpa using h
      | cons y ys =>
          simp only [List.nil_append, List.cons_append, List.cons.injEq] at h
          exact absurd (h.1 ▸ List.mem_cons_self y ys) (h.1 ▸ h₂)
  | cons x xs ih =>
      intro l₂ r₁ r₂ h₁ h₂ h
      cases l₂ with
      | nil =>
          simp only [List.cons_append, List.nil_append, List.cons.injEq] at h
          exact absurd (List.mem_cons_self x xs) (h.1 ▸ h₁)
      | cons y ys =>
          simp only [List.cons_append, List.cons.injEq] at h
          have hxs : '_' ∉ xs := fun hm => h₁ (List.mem_cons_of_mem x hm)
          have hys : '_' ∉ ys := fun hm => h₂ (List.mem_cons_of_mem y hm)
          obtain ⟨he, ht⟩ := ih ys r₁ r₂ hxs hys h.2
          simp [h.1, he, ht]

theorem string_append_cancel_left {s x y : String} (h : s ++ x = s ++ y) :
    x = y := by
  have hd := congrArg String.data h
  rw [String.data_append, String.data_append] at hd
  exact String.ext (List.append_cancel_left hd)

theorem segmentFilename_inj {caseName : String} {s s' a b a' b' : ℕ}
    (hs : s ≠ 0) (hs' : s' ≠ 0)
    (h : segmentFilename caseName s a b = segmentFilename caseName s' a' b') :
    s = s' := by
  unfold segmentFilename at h
  have h2 : natStr s ++ "_" ++ formatTs a ++ "_" ++ formatTs b ++ ".pickle"
      = natStr s' ++ "_" ++ formatTs a' ++ "_" ++ formatTs b' ++ ".pickle" := by
    have hr : ∀ (u v w x : String),
        caseName ++ "_segment" ++ u ++ "_" ++ v ++ "_" ++ w ++ x
          = (caseName ++ "_segment") ++ (u ++ "_" ++ v ++ "_" ++ w ++ x) := by
      intro u v w x
      simp [String.append_assoc]
    rw [hr, hr] at h
    exact string_append_cancel_left h
  have hd := congrArg String.data h2
  simp only [String.data_append] at hd
  simp only [List.append_assoc, List.singleton_append] at hd
  have hsplit := append_underscore_inj (natStr s).data (natStr s').data _ _
    (fun hm => natStr_data_ne_underscore s _ hm rfl)
    (fun hm => natStr_data_ne_underscore s' _ hm rfl) hd
  exact natStr_inj hs hs' (String.ext hsplit.1)

/-! ### Segment loop structure -/

theorem runSegments_length (O : MathOracle) (S : RandomSource)
    (sensors : List String) (fs : ℚ) (caseName : String) (now : ℕ) :
    ∀ (m s : ℕ) (st : S.σ),
      (runSegments O S sensors fs caseName now m s st).1.length = m := by
  intro m
  induction m with
  | zero => intro s st; rfl
  | succ m ih =>
      intro s st
      simp only [runSegments, List.length_cons]
      rw [ih]

theorem runSegments_getElem? (O : MathOracle) (S : RandomSource)
    (sensors : List String) (fs : ℚ) (caseName : String) (now : ℕ) :
    ∀ (m s k : ℕ) (st : S.σ), k < m →
      ∃ st', (runSegments O S sensors fs caseName now m s st).1[k]?
        = some (makeSegment O S sensors fs caseName (s + k) st' now).1 := by
  intro m
  induction m with
  | zero => intro s k st h; omega
  | succ m ih =>
      intro s k st h
      cases k with
      | zero => exact ⟨st, by simp [runSegments]⟩
      | succ k =>
          obtain ⟨st', hst'⟩ := ih (s + 1)
            k (makeSegment O S sensors fs caseName s st now).2 (by omega)
          refine ⟨st', ?_⟩
          simpa [runSegments, Nat.add_assoc, Nat.add_comm 1 k] using hst'

theorem makeSegment_filename (O : MathOracle) (S : RandomSource)
    (sensors : List String) (fs : ℚ) (caseName : String) (s : ℕ) (st : S.σ)
    (now : ℕ) :
    (makeSegment O S sensors fs caseName s st now).1.1
      = segmentFilename caseName s (segStartMin s) (segEndMin s) := rfl

theorem makeSegment_meta (O : MathOracle) (S : RandomSource)
    (sensors : List String) (fs : ℚ) (caseName : String) (s : ℕ) (st : S.σ)
    (now : ℕ) :
    (makeSegment O S sensors fs caseName s st now).1.2.metadata.start_time
        = segStartMin s
      ∧ (makeSegment O S sensors fs caseName s st now).1.2.metadata.end_time
        = segEndMin s
      ∧ (makeSegment O S sensors fs caseName s st now).1.2.metadata.segment_number
        = s := ⟨rfl, rfl, rfl⟩

theorem makeSegment_index (O : MathOracle) (S : RandomSource)
    (sensors : List String) (fs : ℚ) (caseName : String) (s : ℕ) (st : S.σ)
    (now : ℕ) :
    (makeSegment O S sensors fs caseName s st now).1.2.accelerations.index
      = dateRangeSpan ((segStartMin s : ℚ) * 60000) ((segEndMin s : ℚ) * 60000)
          (nSamplesQ 25 fs) := by
  simp only [makeSegment, synth_index_length]
  rfl

theorem makeSegment_data_entry_length (O : MathOracle) (S : RandomSource)
    (sensors : List String) (fs : ℚ) (caseName : String) (s : ℕ) (st : S.σ)
    (now : ℕ) :
    ∀ e ∈ (makeSegment O S sensors fs caseName s st now).1.2.accelerations.data,
      e.2.length = nSamplesQ 25 fs := by
  intro e he
  exact synth_data_entry_length O S _ _ now e he

/-! ### The mean after re-centering -/

theorem sigMean_recenter {n : ℕ} (hn : 0 < n) (f : ℕ → ℚ) (c : ℚ) :
    sigMean n (fun k => f k + c) = sigMean n f + c := by
  unfold sigMean
  rw [Finset.sum_add_distrib, Finset.sum_const, Finset.card_range]
  have hne : (n : ℚ) ≠ 0 := Nat.cast_ne_zero.mpr hn.ne'
  field_simp
  ring


/-! ### Claim C5 -/

/-- Claim C5: for every run and consecutive 1-based segment indices `s`,
`s+1`, the start of segment `s+1` is the start of segment `s` plus 30
minutes, each segment ends 25 minutes after its start, and
`start(s) = anchor_time + (s-1) * 30` minutes (here stated with the
0-based list position `i = s - 1`). -/
theorem claim5_thm (O : MathOracle) (S : RandomSource) (c : Config)
    (m : ℕ) (caseName : String) (st : S.σ) (now : ℕ) (i : ℕ)
    (h : i + 1 < m) :
    (generate_sample_dataset O S c m caseName st now).segmentFiles[i+1]?.map
        (fun f => f.2.metadata.start_time)
      = (generate_sample_dataset O S c m caseName st now).segmentFiles[i]?.map
        (fun f => f.2.metadata.start_time + 30)
    ∧ (generate_sample_dataset O S c m caseName st now).segmentFiles[i]?.map
        (fun f => f.2.metadata.end_time)
      = (generate_sample_dataset O S c m caseName st now).segmentFiles[i]?.map
        (fun f => f.2.metadata.start_time + 25)
    ∧ (generate_sample_dataset O S c m caseName st now).segmentFiles[i]?.map
        (fun f => f.2.metadata.start_time)
      = some (anchorMin + i * 30) := by
  obtain ⟨s1, h1⟩ := runSegments_getElem? O S (resolveSensorNames c)
    (resolveSamplingFreq c) caseName now m 1 i st (by omega)
  obtain ⟨s2, h2⟩ := runSegments_getElem? O S (resolveSensorNames c)
    (resolveSamplingFreq c) caseName now m 1 (i + 1) st h
  have m1 := makeSegment_meta O S (resolveSensorNames c)
    (resolveSamplingFreq c) caseName (1 + i) s1 now
  have m2 := makeSegment_meta O S (resolveSensorNames c)
    (resolveSamplingFreq c) caseName (1 + (i + 1)) s2 now
  simp only [generate_sample_dataset, assembleRun]
  rw [h1, h2]
  simp only [Option.map_some']
  rw [m1.1, m1.2.1, m2.1]
  simp only [segStartMin, segEndMin, anchorMin, Option.some.injEq]
  refine ⟨by omega, by trivial, by omega⟩

/-- Witness for C5 at a concrete run. -/
theorem claim5_witness :
    (0 + 1 < 2)
    ∧ ((generate_sample_dataset oracle0 detSource ⟨none, none⟩ 2 "t" () 0).segmentFiles[0+1]?.map
          (fun f => f.2.metadata.start_time)
        = (generate_sample_dataset oracle0 detSource ⟨none, none⟩ 2 "t" () 0).segmentFiles[0]?.map
          (fun f => f.2.metadata.start_time + 30)
      ∧ (generate_sample_dataset oracle0 detSource ⟨none, none⟩ 2 "t" () 0).segmentFiles[0]?.map
          (fun f => f.2.metadata.end_time)
        = (generate_sample_dataset oracle0 detSource ⟨none, none⟩ 2 "t" () 0).segmentFiles[0]?.map
          (fun f => f.2.metadata.start_time + 25)
      ∧ (generate_sample_dataset oracle0 detSource ⟨none, none⟩ 2 "t" () 0).segmentFiles[0]?.map
          (fun f => f.2.metadata.start_time)
        = some (anchorMin + 0 * 30)) :=
  ⟨by omega, claim5_thm oracle0 detSource ⟨none, none⟩ 2 "t" () 0 0 (by omega)⟩

/-! ### Claim C6 -/

/-- Claim C6: for every Waveform Table returned by the Synthesizer, with a
non-empty sensor list and positive duration and sampling rate, every
sensor's sample sequence has the same length as the shared timestamp axis,
that length is `n_samples`, and when `duration_seconds × sampling_rate` is
a whole number `k` the length equals `k`. -/
theorem claim6_thm (O : MathOracle) (S : RandomSource) (p : GenParams)
    (st : S.σ) (now : ℕ) (hne : p.sensor_names ≠ [])
    (hdur : 0 < p.duration_minutes) (hfs : 0 < p.fs) :
    (∀ e ∈ (generate_synthetic_acceleration_data O S p st now).1.data,
        e.2.length
          = (generate_synthetic_acceleration_data O S p st now).1.index.length)
    ∧ (generate_synthetic_acceleration_data O S p st now).1.index.length
        = nSamples p
    ∧ ∀ k : ℕ, p.duration_minutes * 60 * p.fs = (k : ℚ) → nSamples p = k := by
  refine ⟨?_, synth_index_length O S p st now, ?_⟩
  · intro e he
    rw [synth_data_entry_length O S p st now e he, synth_index_length]
  · intro k hk
    unfold nSamples nSamplesQ
    rw [hk]
    simp


theorem p6_nSamples : nSamples p6 = 600 :=
  nSamplesQ_val 1 10 600 (by norm_num)

/-- Witness for C6 at the spec's small scenario parameters. -/
theorem claim6_witness :
    (p6.sensor_names ≠ [] ∧ 0 < p6.duration_minutes ∧ 0 < p6.fs)
    ∧ ((∀ e ∈ (generate_synthetic_acceleration_data oracle0 detSource p6 () 0).1.data,
          e.2.length
            = (generate_synthetic_acceleration_data oracle0 detSource p6 () 0).1.index.length)
      ∧ (generate_synthetic_acceleration_data oracle0 detSource p6 () 0).1.index.length
          = nSamples p6
      ∧ ∀ k : ℕ, p6.duration_minutes * 60 * p6.fs = (k : ℚ) → nSamples p6 = k) :=
  ⟨⟨by decide, by norm_num [p6], by norm_num [p6]⟩,
    claim6_thm oracle0 detSource p6 () 0 (by decide) (by norm_num [p6])
      (by norm_num [p6])⟩

theorem p6_nSamples_pos : 0 < nSamples p6 := by
  rw [p6_nSamples]; norm_num

/-! ### Claim C7 -/

/-- Claim C7: for every per-sensor signal, after the final re-centering
step the mean of the `n_samples` samples equals the drawn target exactly
(in exact arithmetic), hence lies in `[-1.05, -0.95]`, regardless of the
injected noise, trend, anomaly or edge-artifact contributions; and the
re-centering only adds one constant to every sample of the
pre-re-centering signal. -/
theorem claim7_thm (O : MathOracle) (S : RandomSource) (p : GenParams)
    (i : ℕ) (st : S.σ) (hn : 0 < nSamples p) :
    -(21/20) ≤ sigMean (nSamples p) (buildSensorSignal O S p i st).1
    ∧ sigMean (nSamples p) (buildSensorSignal O S p i st).1 ≤ -(19/20)
    ∧ ∃ c : ℚ, ∀ k, (buildSensorSignal O S p i st).1 k
        = (preRecenter O S p i st).1 k + c := by
  have hfun : (buildSensorSignal O S p i st).1
      = fun k => (preRecenter O S p i st).1 k
          + ((S.uniform (-21/20) (-19/20) (preRecenter O S p i st).2.2).1
            - sigMean (nSamples p) (preRecenter O S p i st).1) := by
    funext k
    simp only [buildSensorSignal, recenterStep]
    ring
  have hmean : sigMean (nSamples p) (buildSensorSignal O S p i st).1
      = (S.uniform (-21/20) (-19/20) (preRecenter O S p i st).2.2).1 := by
    rw [hfun, sigMean_recenter hn]
    ring
  have hb := S.uniform_mem (-21/20) (-19/20) (preRecenter O S p i st).2.2
    (by norm_num)
  refine ⟨?_, ?_, ?_⟩
  · rw [hmean]; linarith [hb.1]
  · rw [hmean]; linarith [hb.2]
  · exact ⟨_, fun k => by rw [hfun]⟩

/-- Witness for C7 at concrete inputs. -/
theorem claim7_witness :
    (0 < nSamples p6)
    ∧ (-(21/20) ≤ sigMean (nSamples p6) (buildSensorSignal oracle0 detSource p6 0 ()).1
      ∧ sigMean (nSamples p6) (buildSensorSignal oracle0 detSource p6 0 ()).1 ≤ -(19/20)
      ∧ ∃ c : ℚ, ∀ k, (buildSensorSignal oracle0 detSource p6 0 ()).1 k
          = (preRecenter oracle0 detSource p6 0 ()).1 k + c) :=
  ⟨p6_nSamples_pos, claim7_thm oracle0 detSource p6 0 () p6_nSamples_pos⟩

/-! ### Claim C8 -/

/-- Claim C8: every segment filename is deterministically derived from the
case label, 1-based segment index, and start/end timestamps as
`{case}_segment{N}_{start}_{end}.pickle` with `start`/`end` formatted
`YYYYMMDDHHMMSS`, and filenames of distinct segments within one run are
distinct (stated for 0-based list positions `i`, `j`, segment numbers
`i+1`, `j+1`). -/
theorem claim8_thm (O : MathOracle) (S : RandomSource) (c : Config)
    (m : ℕ) (caseName : String) (st : S.σ) (now : ℕ) (i j : ℕ)
    (hi : i < m) (hj : j < m) (hne : i ≠ j) :
    (generate_sample_dataset O S c m caseName st now).segmentFiles[i]?.map
        Prod.fst
      = some (segmentFilename caseName (i + 1) (segStartMin (i + 1))
          (segEndMin (i + 1)))
    ∧ (generate_sample_dataset O S c m caseName st now).segmentFiles[i]?.map
        Prod.fst
      ≠ (generate_sample_dataset O S c m caseName st now).segmentFiles[j]?.map
        Prod.fst := by
  obtain ⟨s1, h1⟩ := runSegments_getElem? O S (resolveSensorNames c)
    (resolveSamplingFreq c) caseName now m 1 i st hi
  obtain ⟨s2, h2⟩ := runSegments_getElem? O S (resolveSensorNames c)
    (resolveSamplingFreq c) caseName now m 1 j st hj
  simp only [generate_sample_dataset, assembleRun]
  rw [h1, h2]
  simp only [Option.map_some', makeSegment_filename]
  constructor
  · rw [Nat.add_comm 1 i]
  · intro hcontra
    simp only [Option.some.injEq] at hcontra
    have := segmentFilename_inj (by omega) (by omega) hcontra
    omega

/-- Witness for C8 at a concrete run. -/
theorem claim8_witness :
    ((0 : ℕ) < 2 ∧ (1 : ℕ) < 2 ∧ (0 : ℕ) ≠ 1)
    ∧ ((generate_sample_dataset oracle0 detSource ⟨none, none⟩ 2 "t" () 0).segmentFiles[0]?.map
          Prod.fst
        = some (segmentFilename "t" (0 + 1) (segStartMin (0 + 1))
            (segEndMin (0 + 1)))
      ∧ (generate_sample_dataset oracle0 detSource ⟨none, none⟩ 2 "t" () 0).segmentFiles[0]?.map
          Prod.fst
        ≠ (generate_sample_dataset oracle0 detSource ⟨none, none⟩ 2 "t" () 0).segmentFiles[1]?.map
          Prod.fst) :=
  ⟨⟨by omega, by omega, by omega⟩,
    claim8_thm oracle0 detSource ⟨none, none⟩ 2 "t" () 0 0 1 (by omega)
      (by omega) (by omega)⟩

/-! ### Claim C9 -/


/-- Claim C9: when the sensor-name or sampling-frequency fields are absent
from the configuration, the assembler does not fail: it uses the documented
defaults (`['sensor_1', ..., 'sensor_4']`, 250 Hz) and produces the same
run as if those values had been supplied explicitly. -/
theorem claim9_thm (O : MathOracle) (S : RandomSource) (c : Config)
    (m : ℕ) (caseName : String) (st : S.σ) (now : ℕ)
    (h1 : sensorNamesAbsent c) (h2 : samplingFreqAbsent c) :
    resolveSensorNames c = defaultSensors
    ∧ resolveSamplingFreq c = 250
    ∧ generate_sample_dataset O S c m caseName st now
      = generate_sample_dataset O S explicitDefaultCfg m caseName st now := by
  unfold sensorNamesAbsent at h1
  unfold samplingFreqAbsent at h2
  have hs : resolveSensorNames c = defaultSensors := by
    unfold resolveSensorNames defaultSensors
    rw [h1]
    rfl
  have hf : resolveSamplingFreq c = 250 := by
    unfold resolveSamplingFreq
    rw [h2]
    rfl
  refine ⟨hs, hf, ?_⟩
  unfold generate_sample_dataset
  rw [hs, hf]
  rfl

/-- Witness for C9 at the empty configuration. -/
theorem claim9_witness :
    sensorNamesAbsent ⟨none, none⟩ ∧ samplingFreqAbsent ⟨none, none⟩
    ∧ (resolveSensorNames ⟨none, none⟩ = defaultSensors
      ∧ resolveSamplingFreq ⟨none, none⟩ = 250
      ∧ generate_sample_dataset oracle0 detSource ⟨none, none⟩ 1 "t" () 0
        = generate_sample_dataset oracle0 detSource explicitDefaultCfg
            1 "t" () 0) :=
  ⟨rfl, rfl, claim9_thm oracle0 detSource ⟨none, none⟩ 1 "t" () 0 rfl rfl⟩

/-! ### Claim C10 -/

/-- Claim C10: the dataset summary is always written to the fixed filename
`dataset_summary.yaml`, independent of case label and segment count, so two
runs into the same directory write the summary to the same path even though
their segment files (whose names embed the case label) can coexist — shown
here on two concrete runs with case labels `caseA` and `caseB`. -/
theorem claim10_thm (O : MathOracle) (S : RandomSource) (c : Config)
    (m : ℕ) (caseName : String) (st : S.σ) (now : ℕ) :
    (generate_sample_dataset O S c m caseName st now).summaryFile.1
      = "dataset_summary.yaml"
    ∧ (generate_sample_dataset oracle0 detSource ⟨none, none⟩ 1 "caseA" () 0).summaryFile.1
      = (generate_sample_dataset oracle0 detSource ⟨none, none⟩ 1 "caseB" () 0).summaryFile.1
    ∧ (generate_sample_dataset oracle0 detSource ⟨none, none⟩ 1 "caseA" () 0).segmentFiles[0]?.map
        Prod.fst
      = some "caseA_segment1_20240101090000_20240101092500.pickle"
    ∧ (generate_sample_dataset oracle0 detSource ⟨none, none⟩ 1 "caseB" () 0).segmentFiles[0]?.map
        Prod.fst
      = some "caseB_segment1_20240101090000_20240101092500.pickle"
    ∧ ("caseA_segment1_20240101090000_20240101092500.pickle" : String)
      ≠ "caseB_segment1_20240101090000_20240101092500.pickle" := by
  refine ⟨rfl, rfl, ?_, ?_, by decide⟩
  · obtain ⟨s1, h1⟩ := runSegments_getElem? oracle0 detSource
      (resolveSensorNames ⟨none, none⟩) (resolveSamplingFreq ⟨none, none⟩)
      "caseA" 0 1 1 0 () (by omega)
    simp only [generate_sample_dataset, assembleRun]
    rw [h1]
    simp only [Option.map_some', makeSegment_filename]
    decide
  · obtain ⟨s1, h1⟩ := runSegments_getElem? oracle0 detSource
      (resolveSensorNames ⟨none, none⟩) (resolveSamplingFreq ⟨none, none⟩)
      "caseB" 0 1 1 0 () (by omega)
    simp only [generate_sample_dataset, assembleRun]
    rw [h1]
    simp only [Option.map_some', makeSegment_filename]
    decide

/-! ### Claim C1 -/

/-- Claim C1 (amended): when the transient-anomaly injection triggers, the
shifted sub-range `[a, b)` has length `b - a` in
`[int(0.01 n), int(0.05 n))`, its start lies in `[int(0.1 n), int(0.8 n))`
— so the range may extend past the 80% mark, up to just under 85% of the
span — it stays inside the signal (`b ≤ n`), and all samples outside
`[a, b)` are unaffected by this step. -/
theorem claim1_amended (S : RandomSource) (st : S.σ) (n : ℕ) (sig : ℕ → ℚ)
    (htr : (S.rand st).1 < 1/10) (hlo1 : n / 10 < 4 * n / 5)
    (hlo2 : n / 100 < n / 20) :
    ∃ a b : ℕ,
      (anomalyStep S n sig st).2.1 = some (a, b)
      ∧ n / 10 ≤ a ∧ a < 4 * n / 5
      ∧ n / 100 ≤ b - a ∧ b - a < n / 20
      ∧ b ≤ n ∧ b < 4 * n / 5 + n / 20
      ∧ ∀ k, k < a ∨ b ≤ k → (anomalyStep S n sig st).1 k = sig k := by
  simp only [anomalyStep]
  rw [if_pos htr]
  have ha := S.randint_mem (n / 10) (4 * n / 5) (S.rand st).2 hlo1
  have hd := S.randint_mem (n / 100) (n / 20)
    (S.randint (n / 10) (4 * n / 5) (S.rand st).2).2 hlo2
  set a0 := (S.randint (n / 10) (4 * n / 5) (S.rand st).2).1 with ha0
  set d0 := (S.randint (n / 100) (n / 20)
    (S.randint (n / 10) (4 * n / 5) (S.rand st).2).2).1 with hd0
  have hx : 4 * n / 5 * 5 ≤ 4 * n := Nat.div_mul_le_self _ _
  have hy : n / 20 * 20 ≤ n := Nat.div_mul_le_self _ _
  have hab : a0 + d0 < n := by omega
  have hmin : min (a0 + d0) n = a0 + d0 := Nat.min_eq_left (le_of_lt hab)
  rw [hmin]
  refine ⟨a0, a0 + d0, rfl, ha.1, ha.2, by omega, by omega, by omega,
    by omega, ?_⟩
  intro k hk
  dsimp only
  rw [if_neg (by omega)]

/-- Witness for the amended C1: a triggering source choosing the bottom of
each range, at the script's own sample count 375000. -/
theorem claim1_witness :
    ((loSource.rand ()).1 < 1/10 ∧ 375000 / 10 < 4 * 375000 / 5
      ∧ 375000 / 100 < 375000 / 20)
    ∧ ∃ a b : ℕ,
      (anomalyStep loSource 375000 (fun _ => 0) ()).2.1 = some (a, b)
      ∧ 375000 / 10 ≤ a ∧ a < 4 * 375000 / 5
      ∧ 375000 / 100 ≤ b - a ∧ b - a < 375000 / 20
      ∧ b ≤ 375000 ∧ b < 4 * 375000 / 5 + 375000 / 20
      ∧ ∀ k, k < a ∨ b ≤ k →
          (anomalyStep loSource 375000 (fun _ => 0) ()).1 k
            = (fun _ => (0 : ℚ)) k :=
  ⟨⟨by norm_num [show (loSource.rand ()).1 = 0 from rfl], by decide,
      by decide⟩,
    claim1_amended loSource () 375000 (fun _ => 0)
      (by norm_num [show (loSource.rand ()).1 = 0 from rfl]) (by decide)
      (by decide)⟩


/-- Counterexample to C1 as stated: with a triggering source whose range
draws land at the top of their intervals, a default-parameter synthesis
call shifts the sub-range `[299999, 318748)`, whose end exceeds the 80%
mark `int(0.8 * 375000) = 300000` — the sub-range does not lie inside the
10%–80% region. -/
theorem claim1_counterexample :
    (buildSensorSignal oracle0 hiSource p375 0 ()).2.1
      = some (299999, 318748)
    ∧ 4 * nSamples p375 / 5 = 300000
    ∧ 300000 < 318748 := by
  have hn : nSamples p375 = 375000 := nSamplesQ_val 25 250 375000 (by norm_num)
  refine ⟨?_, by rw [hn], by norm_num⟩
  simp only [buildSensorSignal, preRecenter, hn]
  simp only [anomalyStep, hiSource]
  norm_num

/-! ### Claim C2 -/


/-- Counterexample to C2 as stated: two calls with identical explicit
parameters and an identical fixed random source, made when the wall clock
reads 0 ms versus 60000 ms, return tables that are not byte-identical —
the timestamp axes differ (the sample data do coincide). -/
theorem claim2_counterexample :
    (generate_synthetic_acceleration_data oracle0 detSource p2 () 0).1.index[0]?
      = some 0
    ∧ (generate_synthetic_acceleration_data oracle0 detSource p2 () 60000).1.index[0]?
      = some 60000
    ∧ (generate_synthetic_acceleration_data oracle0 detSource p2 () 0).1
      ≠ (generate_synthetic_acceleration_data oracle0 detSource p2 () 60000).1
    ∧ (generate_synthetic_acceleration_data oracle0 detSource p2 () 0).1.data
      = (generate_synthetic_acceleration_data oracle0 detSource p2 () 60000).1.data := by
  have hn : nSamples p2 = 2 := nSamplesQ_val (1/60) 2 2 (by norm_num)
  have h1 := synth_index_getElem? oracle0 detSource p2 () 0
    (k := 0) (by rw [hn]; norm_num)
  have h2 := synth_index_getElem? oracle0 detSource p2 () 60000
    (k := 0) (by rw [hn]; norm_num)
  have hv1 : (generate_synthetic_acceleration_data oracle0 detSource p2 () 0).1.index[0]?
      = some 0 := by
    rw [h1]; norm_num
  have hv2 : (generate_synthetic_acceleration_data oracle0 detSource p2 () 60000).1.index[0]?
      = some 60000 := by
    rw [h2]; norm_num
  refine ⟨hv1, hv2, ?_, rfl⟩
  intro hcontra
  have heq := congrArg (fun t : WaveformTable => t.index[0]?) hcontra
  simp only at heq
  rw [hv1, hv2] at heq
  simp at heq

/-- Claim C2 (amended): the Synthesizer is a pure function of its explicit
parameters, the random source and state, and the clock reading: two calls
agreeing on all of these (including the clock) return identical tables, and
the sample data (everything except the timestamp axis) agree even across
different clock readings. -/
theorem claim2_amended (O : MathOracle) (S : RandomSource) (p : GenParams)
    (st : S.σ) (now now2 : ℕ) (h : now = now2) :
    generate_synthetic_acceleration_data O S p st now
      = generate_synthetic_acceleration_data O S p st now2
    ∧ ∀ m1 m2 : ℕ,
        (generate_synthetic_acceleration_data O S p st m1).1.data
          = (generate_synthetic_acceleration_data O S p st m2).1.data := by
  subst h
  exact ⟨rfl, fun m1 m2 => rfl⟩

/-- Witness for the amended C2 at concrete inputs. -/
theorem claim2_witness :
    (0 : ℕ) = 0
    ∧ (generate_synthetic_acceleration_data oracle0 detSource p2 () 0
        = generate_synthetic_acceleration_data oracle0 detSource p2 () 0
      ∧ ∀ m1 m2 : ℕ,
          (generate_synthetic_acceleration_data oracle0 detSource p2 () m1).1.data
            = (generate_synthetic_acceleration_data oracle0 detSource p2 () m2).1.data) :=
  ⟨rfl, claim2_amended oracle0 detSource p2 () 0 0 rfl⟩

/-! ### Claim C3 -/

theorem sensorFold_lengths_map (O : MathOracle) (S : RandomSource)
    (p : GenParams) (n : ℕ) :
    ∀ (l : List (ℕ × String)) (st : S.σ),
      (sensorFold O S p n l st).1.map (fun e => e.2.length)
        = l.map (fun _ => n) := by
  intro l
  induction l with
  | nil => intro st; rfl
  | cons x rest ih =>
      intro st
      obtain ⟨i, name⟩ := x
      simp only [sensorFold, List.map_cons, List.length_map,
        List.length_range, List.cons.injEq]
      exact ⟨by trivial, ih _⟩

theorem makeSegment_data_lengths (O : MathOracle) (S : RandomSource)
    (sensors : List String) (fs : ℚ) (caseName : String) (s : ℕ) (st : S.σ)
    (now : ℕ) :
    (makeSegment O S sensors fs caseName s st now).1.2.accelerations.data.map
        (fun e => e.2.length)
      = List.replicate sensors.length (nSamplesQ 25 fs) := by
  simp only [makeSegment, generate_synthetic_acceleration_data]
  rw [sensorFold_lengths_map]
  simp [List.map_const', List.enum_length, nSamples]

/-- Claim C3 (amended): every Synthesizer-produced timestamp axis is
strictly increasing with consecutive spacing exactly `1/fs` seconds
(`1000/fs` ms); each persisted segment's re-timestamped axis keeps the
Synthesizer's sample count, spans exactly `[start, end]`, and is strictly
increasing with consecutive spacing `(end - start)/(N - 1)` milliseconds —
not `1/fs`. -/
theorem claim3_amended (O : MathOracle) (S : RandomSource) (p : GenParams)
    (st : S.σ) (now : ℕ) (k : ℕ) (c : Config) (m i j : ℕ)
    (caseName : String) (st2 : S.σ) (now2 : ℕ)
    (hk : k + 1 < nSamples p) (hfs : 0 < p.fs) (hi : i < m)
    (hj : j + 1 < nSamplesQ 25 (resolveSamplingFreq c)) :
    (∃ a b : ℚ,
      (generate_synthetic_acceleration_data O S p st now).1.index[k]? = some a
      ∧ (generate_synthetic_acceleration_data O S p st now).1.index[k+1]?
        = some b
      ∧ b - a = 1000 / p.fs ∧ a < b)
    ∧ (generate_sample_dataset O S c m caseName st2 now2).segmentFiles[i]?.map
        (fun f => f.2.accelerations.index.length)
      = some (nSamplesQ 25 (resolveSamplingFreq c))
    ∧ (generate_sample_dataset O S c m caseName st2 now2).segmentFiles[i]?.map
        (fun f => f.2.accelerations.index[0]?)
      = some (some ((segStartMin (i+1) : ℚ) * 60000))
    ∧ (generate_sample_dataset O S c m caseName st2 now2).segmentFiles[i]?.map
        (fun f =>
          f.2.accelerations.index[nSamplesQ 25 (resolveSamplingFreq c) - 1]?)
      = some (some ((segEndMin (i+1) : ℚ) * 60000))
    ∧ (∃ a b : ℚ,
        (generate_sample_dataset O S c m caseName st2 now2).segmentFiles[i]?.map
          (fun f => (f.2.accelerations.index[j]?,
            f.2.accelerations.index[j+1]?))
          = some (some a, some b)
        ∧ b - a
          = (25 * 60000) / ((nSamplesQ 25 (resolveSamplingFreq c) : ℚ) - 1)
        ∧ a < b) := by
  have hpos1 : 0 < 1000 / p.fs := by positivity
  constructor
  · refine ⟨_, _, synth_index_getElem? O S p st now (by omega),
      synth_index_getElem? O S p st now hk, ?_, ?_⟩
    · push_cast
      ring
    · push_cast
      nlinarith
  · obtain ⟨s1, h1⟩ := runSegments_getElem? O S (resolveSensorNames c)
      (resolveSamplingFreq c) caseName now2 m 1 i st2 hi
    set N := nSamplesQ 25 (resolveSamplingFreq c) with hN
    have hN2 : 2 ≤ N := by omega
    have hNQ : (1 : ℚ) ≤ (N : ℚ) - 1 := by
      have h2 : (2 : ℚ) ≤ (N : ℚ) := by exact_mod_cast hN2
      linarith
    have hNne : ((N : ℚ) - 1) ≠ 0 := by linarith
    have hspan : ∀ s : ℕ, ((segEndMin s : ℚ) * 60000)
        - ((segStartMin s : ℚ) * 60000) = 25 * 60000 := by
      intro s
      simp only [segEndMin]
      push_cast
      ring
    have hpos2 : 0 < (25 * 60000 : ℚ) / ((N : ℚ) - 1) :=
      div_pos (by norm_num) (by linarith)
    simp only [generate_sample_dataset, assembleRun]
    rw [h1]
    simp only [Option.map_some', makeSegment_index, Nat.add_comm 1 i]
    have hnle : ¬ N ≤ 1 := by omega
    have hA0 : (dateRangeSpan ((segStartMin (i+1) : ℚ) * 60000)
        ((segEndMin (i+1) : ℚ) * 60000) N)[0]?
        = some ((segStartMin (i+1) : ℚ) * 60000) := by
      rw [dateRangeSpan_getElem? _ _ (show 0 < N by omega), if_neg hnle]
      norm_num
    have hAN : (dateRangeSpan ((segStartMin (i+1) : ℚ) * 60000)
        ((segEndMin (i+1) : ℚ) * 60000) N)[N - 1]?
        = some ((segEndMin (i+1) : ℚ) * 60000) := by
      rw [dateRangeSpan_getElem? _ _ (show N - 1 < N by omega), if_neg hnle]
      have hc : ((N - 1 : ℕ) : ℚ) = (N : ℚ) - 1 := by
        push_cast [Nat.cast_sub (show 1 ≤ N by omega)]
        ring
      rw [hc, hspan (i + 1)]
      simp only [Option.some.injEq]
      field_simp
      linarith [hspan (i + 1)]
    have hAj : (dateRangeSpan ((segStartMin (i+1) : ℚ) * 60000)
        ((segEndMin (i+1) : ℚ) * 60000) N)[j]?
        = some ((segStartMin (i+1) : ℚ) * 60000
            + (j : ℚ) * ((25 * 60000) / ((N : ℚ) - 1))) := by
      rw [dateRangeSpan_getElem? _ _ (show j < N by omega), if_neg hnle,
        hspan (i + 1)]
    have hAj1 : (dateRangeSpan ((segStartMin (i+1) : ℚ) * 60000)
        ((segEndMin (i+1) : ℚ) * 60000) N)[j + 1]?
        = some ((segStartMin (i+1) : ℚ) * 60000
            + ((j : ℚ) + 1) * ((25 * 60000) / ((N : ℚ) - 1))) := by
      rw [dateRangeSpan_getElem? _ _ (show j + 1 < N by omega), if_neg hnle,
        hspan (i + 1)]
      push_cast
      ring_nf
    refine ⟨by rw [dateRangeSpan_length], hA0 ▸ rfl, hAN ▸ rfl, ?_⟩
    refine ⟨_, _, by rw [hAj, hAj1], ?_, ?_⟩
    · ring
    · nlinarith [hpos2]

/-- Witness for the amended C3 at concrete inputs. -/
theorem claim3_witness :
    (0 + 1 < nSamples p2 ∧ 0 < p2.fs ∧ 0 < 1
      ∧ 0 + 1 < nSamplesQ 25 (resolveSamplingFreq ⟨none, none⟩))
    ∧ ((∃ a b : ℚ,
        (generate_synthetic_acceleration_data oracle0 detSource p2 () 0).1.index[0]?
          = some a
        ∧ (generate_synthetic_acceleration_data oracle0 detSource p2 () 0).1.index[0+1]?
          = some b
        ∧ b - a = 1000 / p2.fs ∧ a < b)
      ∧ (generate_sample_dataset oracle0 detSource ⟨none, none⟩ 1 "t" () 0).segmentFiles[0]?.map
          (fun f => f.2.accelerations.index.length)
        = some (nSamplesQ 25 (resolveSamplingFreq ⟨none, none⟩))
      ∧ (generate_sample_dataset oracle0 detSource ⟨none, none⟩ 1 "t" () 0).segmentFiles[0]?.map
          (fun f => f.2.accelerations.index[0]?)
        = some (some ((segStartMin (0+1) : ℚ) * 60000))
      ∧ (generate_sample_dataset oracle0 detSource ⟨none, none⟩ 1 "t" () 0).segmentFiles[0]?.map
          (fun f =>
            f.2.accelerations.index[nSamplesQ 25 (resolveSamplingFreq ⟨none, none⟩) - 1]?)
        = some (some ((segEndMin (0+1) : ℚ) * 60000))
      ∧ (∃ a b : ℚ,
          (generate_sample_dataset oracle0 detSource ⟨none, none⟩ 1 "t" () 0).segmentFiles[0]?.map
            (fun f => (f.2.accelerations.index[0]?,
              f.2.accelerations.index[0+1]?))
            = some (some a, some b)
          ∧ b - a
            = (25 * 60000) / ((nSamplesQ 25 (resolveSamplingFreq ⟨none, none⟩) : ℚ) - 1)
          ∧ a < b)) :=
  ⟨⟨(by rw [show nSamples p2 = 2 from nSamplesQ_val (1/60) 2 2 (by norm_num)]; omega),
    (by norm_num [p2]), (by omega),
    (by show 0 + 1 < nSamplesQ 25 250
        rw [nSamplesQ_val 25 250 375000 (by norm_num)]; omega)⟩,
    claim3_amended oracle0 detSource p2 () 0 0 ⟨none, none⟩ 1 0 0 "t" () 0
      (by rw [show nSamples p2 = 2 from nSamplesQ_val (1/60) 2 2 (by norm_num)]; omega)
      (by norm_num [p2]) (by omega)
      (by show 0 + 1 < nSamplesQ 25 250
          rw [nSamplesQ_val 25 250 375000 (by norm_num)]; omega)⟩

/-- Counterexample to C3 as stated: in the default 250 Hz run, the
re-timestamped axis of the first persisted segment has consecutive spacing
`1500000/374999` ms, which is not `1/fs = 4` ms. -/
theorem claim3_counterexample :
    (generate_sample_dataset oracle0 detSource ⟨none, none⟩ 1 "t" () 0).segmentFiles[0]?.map
        (fun f => (f.2.accelerations.index[0]?, f.2.accelerations.index[1]?))
      = some (some 32400000, some (32400000 + 1500000 / 374999))
    ∧ (1000 : ℚ) / resolveSamplingFreq ⟨none, none⟩ = 4
    ∧ (32400000 + 1500000 / 374999 : ℚ) - 32400000 ≠ 4 := by
  have hfsr : resolveSamplingFreq ⟨none, none⟩ = 250 := rfl
  refine ⟨?_, by rw [hfsr]; norm_num, by norm_num⟩
  obtain ⟨s1, h1⟩ := runSegments_getElem? oracle0 detSource
    (resolveSensorNames ⟨none, none⟩) (resolveSamplingFreq ⟨none, none⟩)
    "t" 0 1 1 0 () (by omega)
  simp only [generate_sample_dataset, assembleRun]
  rw [h1]
  simp only [Option.map_some', makeSegment_index]
  have hN : nSamplesQ 25 (resolveSamplingFreq ⟨none, none⟩) = 375000 :=
    nSamplesQ_val 25 250 375000 (by norm_num)
  rw [hN]
  rw [dateRangeSpan_getElem? _ _ (show 0 < 375000 by omega),
    dateRangeSpan_getElem? _ _ (show 1 < 375000 by omega),
    if_neg (show ¬ (375000 : ℕ) ≤ 1 by omega)]
  have hsv : ((segStartMin (1 + 0) : ℚ)) * 60000 = 32400000 := by
    norm_num [segStartMin, anchorMin]
  have hev : ((segEndMin (1 + 0) : ℚ)) * 60000 = 33900000 := by
    norm_num [segEndMin, segStartMin, anchorMin]
  rw [hsv, hev]
  norm_num

/-! ### Claim C4 -/


/-- Counterexample to C4 as stated: in the end-to-end run with sensors
`["s1","s2"]`, 10 Hz, `segment_count = 2`, case label `t`, each segment's
table has `int(25 * 60 * 10) = 15000` samples per sensor (the assembler
hard-codes 25-minute segments; there is no way to request 1-minute
segments), not the 600 the claim asserts. -/
theorem claim4_counterexample :
    (generate_sample_dataset oracle0 detSource cfg4 2 "t" () 0).segmentFiles[0]?.map
        (fun f => f.2.accelerations.data.map (fun e => e.2.length))
      = some [15000, 15000]
    ∧ (15000 : ℕ) ≠ 600 := by
  refine ⟨?_, by omega⟩
  obtain ⟨s1, h1⟩ := runSegments_getElem? oracle0 detSource
    (resolveSensorNames cfg4) (resolveSamplingFreq cfg4) "t" 0 2 1 0 ()
    (by omega)
  simp only [generate_sample_dataset, assembleRun]
  rw [h1]
  simp only [Option.map_some']
  rw [makeSegment_data_lengths]
  have hN : nSamplesQ 25 (resolveSamplingFreq cfg4) = 15000 :=
    nSamplesQ_val 25 10 15000 (by norm_num)
  rw [hN]
  rfl

/-- Claim C4 (amended): the end-to-end run with sensors `["s1","s2"]`,
10 Hz, `segment_count = 2`, case label `t` writes exactly 2 segment files
with the pattern-conforming names plus the one summary file; the summary's
`dataset_info.n_segments` is 2; and each segment's table has exactly
15000 samples per sensor (25 minutes at 10 Hz — the assembler's segment
duration is fixed at 25 minutes, so no run produces 600-sample segments). -/
theorem claim4_amended :
    (generate_sample_dataset oracle0 detSource cfg4 2 "t" () 0).segmentFiles.length
      = 2
    ∧ (generate_sample_dataset oracle0 detSource cfg4 2 "t" () 0).segmentFiles[0]?.map
        Prod.fst
      = some "t_segment1_20240101090000_20240101092500.pickle"
    ∧ (generate_sample_dataset oracle0 detSource cfg4 2 "t" () 0).segmentFiles[1]?.map
        Prod.fst
      = some "t_segment2_20240101093000_20240101095500.pickle"
    ∧ (generate_sample_dataset oracle0 detSource cfg4 2 "t" () 0).summaryFile.1
      = "dataset_summary.yaml"
    ∧ (generate_sample_dataset oracle0 detSource cfg4 2 "t" () 0).summaryFile.2.dataset_info.n_segments
      = 2
    ∧ (generate_sample_dataset oracle0 detSource cfg4 2 "t" () 0).segmentFiles[0]?.map
        (fun f => f.2.accelerations.data.map (fun e => e.2.length))
      = some [15000, 15000]
    ∧ (generate_sample_dataset oracle0 detSource cfg4 2 "t" () 0).segmentFiles[1]?.map
        (fun f => f.2.accelerations.data.map (fun e => e.2.length))
      = some [15000, 15000] := by
  have hN : nSamplesQ 25 (resolveSamplingFreq cfg4) = 15000 :=
    nSamplesQ_val 25 10 15000 (by norm_num)
  obtain ⟨s1, h1⟩ := runSegments_getElem? oracle0 detSource
    (resolveSensorNames cfg4) (resolveSamplingFreq cfg4) "t" 0 2 1 0 ()
    (by omega)
  obtain ⟨s2, h2⟩ := runSegments_getElem? oracle0 detSource
    (resolveSensorNames cfg4) (resolveSamplingFreq cfg4) "t" 0 2 1 1 ()
    (by omega)
  refine ⟨?_, ?_, ?_, rfl, rfl, ?_, ?_⟩
  · simp only [generate_sample_dataset, assembleRun]
    rw [runSegments_length]
  · simp only [generate_sample_dataset, assembleRun]
    rw [h1]
    simp only [Option.map_some', makeSegment_filename]
    decide
  · simp only [generate_sample_dataset, assembleRun]
    rw [h2]
    simp only [Option.map_some', makeSegment_filename]
    decide
  · simp only [generate_sample_dataset, assembleRun]
    rw [h1]
    simp only [Option.map_some']
    rw [makeSegment_data_lengths, hN]
    rfl
  · simp only [generate_sample_dataset, assembleRun]
    rw [h2]
    simp only [Option.map_some']
    rw [makeSegment_data_lengths, hN]
    rfl
